import Mathlib

/-!
Shallow embedding of `src/hamster_auto_tracker.py` (the `AutoTracker` class):
a session-activity monitor that watches screensaver lock/unlock events and
closes or (re)opens the current hamster time-tracking entry.

Timestamps and durations are rationals measured in seconds;
`timeout_minutes` is kept in minutes, as in the source, so the duration it
denotes is `timeout_minutes * 60` seconds.
-/

namespace HamsterAutoTracker

/-- `default_activity = 'Work'` (module constant in the source). -/
def default_activity : String := "Work"

/-- `default_category = 'Work'` (module constant in the source). -/
def default_category : String := "Work"

/-- The mutable fields of `AutoTracker` that the event handlers touch:
`self.screensaver_active`, `self.screen_locked`, `self.timeout_minutes`. -/
structure SessionState where
  screensaver_active : Bool
  screen_locked : Bool
  timeout_minutes : ℚ
  deriving Repr, DecidableEq

/-- `AutoTracker.__init__` lines 66-72: the gconf idle-delay `d` (seconds)
is turned into `timeout_minutes`: `d/60` (Python 3 true division) when `d`
is truthy, else `0`.  A gconf read failure surfaces as `get_int` returning
`0`, hence also the `0` branch. -/
def initTimeout (d : ℕ) : ℚ :=
  if d ≠ 0 then (d : ℚ) / 60 else 0

/-- `AutoTracker.__init__` lines 56-57 and 66-72: `screensaver_active` is
synchronized from the collaborator (`self.is_screensaver_active()`), while
`screen_locked` is initialized to `False` unconditionally. -/
def initState (activation : Bool) (d : ℕ) : SessionState :=
  { screensaver_active := activation
  , screen_locked := false
  , timeout_minutes := initTimeout d }

/-- A D-Bus message as inspected by `on_locked` (interface and member). -/
structure DBusMessage where
  interface : String
  member : String
  deriving Repr, DecidableEq

/-- The message the lock match rule targets:
`interface='org.gnome.ScreenSaver', member='Lock'`. -/
def lockMsg : DBusMessage :=
  { interface := "org.gnome.ScreenSaver", member := "Lock" }

/-- `AutoTracker.on_locked` lines 100-103: if the message is the
ScreenSaver `Lock` call, set `self.screen_locked = True`; otherwise nothing
happens. -/
def on_locked (s : SessionState) (msg : DBusMessage) : SessionState :=
  if msg.interface = "org.gnome.ScreenSaver" ∧ msg.member = "Lock" then
    { s with screen_locked := true }
  else
    s

/-- `AutoTracker.idle_start` lines 118-128: if the screen was not
explicitly locked and a timeout is configured, idleness started
`timeout_minutes` minutes before now; otherwise it starts now. -/
def idle_start (s : SessionState) (now : ℚ) : ℚ :=
  if ¬ s.screen_locked ∧ s.timeout_minutes ≠ 0 then
    now - s.timeout_minutes * 60
  else
    now

/-- The duration (in seconds) denoted by the stored `timeout_minutes`. -/
def idleTimeout (s : SessionState) : ℚ :=
  s.timeout_minutes * 60

/-- The two abstract ledger commands the machine can issue:
`CloseOpenEntry` is the `StopTracking(idle_start)` call of
`stop_activity`, `UpsertOpenEntry` is the fetch-then-update-or-create
performed by `resume_activity`. -/
inductive Command where
  | CloseOpenEntry (ts : ℚ)
  | UpsertOpenEntry
  deriving Repr, DecidableEq

/-- `AutoTracker.on_active_changed` lines 106-115: store the new flag,
then either stop the current activity (screensaver became active) or clear
`screen_locked` and resume/start one (screensaver deactivated).  Returns
the updated state and the ledger command issued. -/
def on_active_changed (s : SessionState) (screensaver_active : Bool) (now : ℚ) :
    SessionState × List Command :=
  let s1 := { s with screensaver_active := screensaver_active }
  if s1.screensaver_active then
    (s1, [Command.CloseOpenEntry (idle_start s1 now)])
  else
    ({ s1 with screen_locked := false }, [Command.UpsertOpenEntry])

/-- The two event kinds delivered by the signal source. -/
inductive Event where
  | lockRequested
  | activeChanged (v : Bool)
  deriving Repr, DecidableEq

/-- Dispatch of one event, as wired in `AutoTracker.run`: `Lock` messages
go to `on_locked` (no ledger command), `ActiveChanged` signals go to
`on_active_changed`. -/
def handle (s : SessionState) (e : Event) (now : ℚ) : SessionState × List Command :=
  match e with
  | Event.lockRequested => (on_locked s lockMsg, [])
  | Event.activeChanged v => on_active_changed s v now

/-- Drain a timestamped event sequence in arrival order. -/
def runEvents (s : SessionState) : List (Event × ℚ) → SessionState
  | [] => s
  | (e, t) :: rest => runEvents (handle s e t).1 rest

/-- A hamster fact as handled by `resume_activity`
(`{id, category, activity, start, range.end}`). -/
structure FactEntry where
  id : ℕ
  category : String
  activity : String
  start : ℚ
  range_end : Option ℚ
  deriving Repr, DecidableEq

/-- The mutating hamster D-Bus call chosen by `resume_activity`. -/
inductive LedgerCall where
  | UpdateFactJSON (id : ℕ) (fact : FactEntry)
  | AddFactJSON (category : String) (activity : String) (start : ℚ)
  deriving Repr, DecidableEq

/-- `AutoTracker.resume_activity` lines 141-156: fetch today's facts; if
any exist, take the last one (`activities[-1]`), clear its end
(`act.range.end = None`) and update it under its own id
(`UpdateFactJSON(act.id, json)`); otherwise add a brand-new fact with the
default category/activity starting now (`AddFactJSON`). -/
def resume_activity (activities : List FactEntry) (now : ℚ) : LedgerCall :=
  match activities.getLast? with
  | some act => LedgerCall.UpdateFactJSON act.id { act with range_end := none }
  | none => LedgerCall.AddFactJSON default_category default_activity now

/-- Modelled from the spec: the ledger collaborator's `UpdateFactJSON`
(called `reopen_entry` in the spec) replaces the stored entry carrying the
given id with the supplied fact, reusing that id.  The hamster daemon's
implementation is not part of this repository. -/
def applyUpdate (activities : List FactEntry) (i : ℕ) (f : FactEntry) :
    List FactEntry :=
  activities.map (fun a => if a.id = i then f else a)

/-- Modelled from the spec: the ledger collaborator's `AddFactJSON`
(called `create_entry` in the spec) appends a new entry under a fresh id
chosen by the ledger.  The hamster daemon's implementation is not part of
this repository. -/
def applyAdd (activities : List FactEntry) (freshId : ℕ)
    (category activity : String) (start : ℚ) : List FactEntry :=
  activities ++ [{ id := freshId, category := category, activity := activity
                 , start := start, range_end := none }]

/-- Modelled from the spec: the ledger collaborator's `StopTracking`
(`CloseOpenEntry(at)` in the spec) sets the end timestamp of the latest
(open) entry of the day.  The hamster daemon's implementation is not part
of this repository. -/
def applyStop (activities : List FactEntry) (t : ℚ) : List FactEntry :=
  match activities.getLast? with
  | some act => activities.dropLast ++ [{ act with range_end := some t }]
  | none => activities

/-- Apply the mutating ledger call chosen by `resume_activity`, tracking
the ledger's fresh-id counter. -/
def applyLedgerCall (l : List FactEntry) (nid : ℕ) :
    LedgerCall → List FactEntry × ℕ
  | LedgerCall.UpdateFactJSON i f => (applyUpdate l i f, nid)
  | LedgerCall.AddFactJSON c a st => (applyAdd l nid c a st, nid + 1)

/-- Combined state of the tracker and the (spec-modelled) ledger holding
today's entries. -/
structure SysState where
  session : SessionState
  ledger : List FactEntry
  nextId : ℕ
  deriving Repr, DecidableEq

/-- One event of the combined tracker-plus-ledger system, following the
handler bodies: `ActiveChanged(true)` stops tracking at `idle_start`,
`ActiveChanged(false)` clears the lock flag and upserts today's entry. -/
def sysStep (σ : SysState) (e : Event) (now : ℚ) : SysState :=
  match e with
  | Event.lockRequested => { σ with session := on_locked σ.session lockMsg }
  | Event.activeChanged v =>
    let s1 := { σ.session with screensaver_active := v }
    if v then
      { σ with session := s1, ledger := applyStop σ.ledger (idle_start s1 now) }
    else
      let s2 := { s1 with screen_locked := false }
      let r := applyLedgerCall σ.ledger σ.nextId (resume_activity σ.ledger now)
      { session := s2, ledger := r.1, nextId := r.2 }

/-- Drain a timestamped event sequence through the combined system. -/
def sysRun (σ : SysState) : List (Event × ℚ) → SysState
  | [] => σ
  | (e, t) :: rest => sysRun (sysStep σ e t) rest

/-- `on_active_changed` with the outcome of its (synchronous, exception
throwing) hamster D-Bus call made explicit: mirrors the source statement
order, where the state fields are assigned before the ledger call is
issued, so a raised `DBusException` leaves the assignments in place. -/
def on_active_changed_run (s : SessionState) (v : Bool) (_now : ℚ)
    (ledgerFails : Bool) : SessionState × Except String Unit :=
  let s1 := { s with screensaver_active := v }
  if s1.screensaver_active then
    (s1, if ledgerFails then Except.error "DBusException" else Except.ok ())
  else
    ({ s1 with screen_locked := false },
      if ledgerFails then Except.error "DBusException" else Except.ok ())

/-! ## Theorems -/

/-- Helper: handling `LockRequested` only sets the `screen_locked` flag. -/
theorem handle_lock_state (s : SessionState) (t : ℚ) :
    (handle s Event.lockRequested t).1 = { s with screen_locked := true } := by
  simp [handle, on_locked, lockMsg]

/-- C1: for `ActiveChanged(true)` handled at wall time `t`, the timestamp
passed to `CloseOpenEntry` (`StopTracking`) equals `t` when `screen_locked`
is true or the idle timeout is `0`, and equals `t` minus the idle-timeout
duration when `screen_locked` is false and the timeout is positive. -/
theorem C1_close_timestamp (s : SessionState) (t : ℚ) :
    ((s.screen_locked = true ∨ s.timeout_minutes = 0) →
      (handle s (Event.activeChanged true) t).2 = [Command.CloseOpenEntry t]) ∧
    (s.screen_locked = false → 0 < s.timeout_minutes →
      (handle s (Event.activeChanged true) t).2
        = [Command.CloseOpenEntry (t - idleTimeout s)]) := by
  constructor
  · rintro (hl | hz)
    · simp [handle, on_active_changed, idle_start, hl]
    · simp [handle, on_active_changed, idle_start, hz]
  · intro hl hpos
    simp [handle, on_active_changed, idle_start, idleTimeout, hl, ne_of_gt hpos]

/-- Witness for C1 at a concrete unlocked state with a 10-minute timeout. -/
theorem C1_close_timestamp_witness :
    (handle ⟨false, false, 10⟩ (Event.activeChanged true) 0).2
      = [Command.CloseOpenEntry (0 - idleTimeout ⟨false, false, 10⟩)] :=
  (C1_close_timestamp ⟨false, false, 10⟩ 0).2 rfl (by norm_num)

/-- C3: handling `ActiveChanged(true)` leaves `screen_locked` unchanged,
and handling `ActiveChanged(false)` sets `screen_locked` to false. -/
theorem C3_locked_frame (s : SessionState) (t : ℚ) :
    (handle s (Event.activeChanged true) t).1.screen_locked = s.screen_locked ∧
    (handle s (Event.activeChanged false) t).1.screen_locked = false := by
  constructor <;> simp [handle, on_active_changed]

/-- C6: a `LockRequested` event only sets `screen_locked` to true (leaving
`screensaver_active` and `timeout_minutes` untouched), issues no ledger
command, is idempotent over any number of repetitions, and a message not
matching the ScreenSaver `Lock` filter leaves the state entirely alone. -/
theorem C6_lock_effect (s : SessionState) (t : ℚ) (n : ℕ) (msg : DBusMessage) :
    (handle s Event.lockRequested t).1 = { s with screen_locked := true } ∧
    (handle s Event.lockRequested t).2 = [] ∧
    runEvents s ((Event.lockRequested, t) :: List.replicate n (Event.lockRequested, t))
      = runEvents s [(Event.lockRequested, t)] ∧
    (¬ (msg.interface = "org.gnome.ScreenSaver" ∧ msg.member = "Lock") →
      on_locked s msg = s) := by
  refine ⟨handle_lock_state s t, by simp [handle], ?_, ?_⟩
  · have hfix : ∀ (m : ℕ) (u : SessionState), u.screen_locked = true →
        runEvents u (List.replicate m (Event.lockRequested, t)) = u := by
      intro m
      induction m with
      | zero => intro u _; rfl
      | succ k ih =>
        intro u hu
        have hstep : (handle u Event.lockRequested t).1 = u := by
          rw [handle_lock_state]
          cases u with
          | mk a l tm => cases hu; rfl
        simp [List.replicate, runEvents, hstep]
        exact ih u hu
    simp only [runEvents, handle_lock_state]
    exact hfix n { s with screen_locked := true } rfl
  · intro hnot
    simp [on_locked, hnot]

/-- Witness for C6 at a concrete state and a non-matching message. -/
theorem C6_lock_effect_witness :
    on_locked ⟨true, false, 0⟩ ⟨"x", "y"⟩ = ⟨true, false, 0⟩ :=
  (C6_lock_effect ⟨true, false, 0⟩ 0 0 ⟨"x", "y"⟩).2.2.2 (by decide)

/-- C7: the session-state outcome of `on_active_changed` is the same
whether the hamster ledger call succeeds or raises, because the state
fields are assigned before the call is issued — the transition is never
rolled back. -/
theorem C7_no_rollback (s : SessionState) (v : Bool) (t : ℚ) (f : Bool) :
    (on_active_changed_run s v t f).1 = (on_active_changed s v t).1 := by
  cases v <;> simp [on_active_changed_run, on_active_changed]

/-- C8: per handled event, at most one ledger command: `LockRequested`
issues none, `ActiveChanged(true)` exactly one `CloseOpenEntry`, and
`ActiveChanged(false)` exactly one `UpsertOpenEntry`. -/
theorem C8_at_most_one_command (s : SessionState) (t : ℚ) :
    (handle s Event.lockRequested t).2 = [] ∧
    (handle s (Event.activeChanged true) t).2
      = [Command.CloseOpenEntry (idle_start { s with screensaver_active := true } t)] ∧
    (handle s (Event.activeChanged false) t).2 = [Command.UpsertOpenEntry] ∧
    ∀ e : Event, (handle s e t).2.length ≤ 1 := by
  refine ⟨by simp [handle], by simp [handle, on_active_changed], by simp [handle, on_active_changed], ?_⟩
  intro e
  cases e with
  | lockRequested => simp [handle]
  | activeChanged v => cases v <;> simp [handle, on_active_changed]

/-- C2: `ActiveChanged(false)` triggers `resume_activity`, whose effect
is: when today's ledger holds at least one entry, clear the end timestamp
of the most recent one reusing its existing id; when it holds none, add a
new entry starting now with the default category and activity; and a
lock/unlock/lock/unlock round trip within one day reopens the same entry
rather than creating another. -/
theorem C2_upsert_effect :
    (∀ (activities : List FactEntry) (act : FactEntry) (now : ℚ),
        activities.getLast? = some act →
        resume_activity activities now
          = LedgerCall.UpdateFactJSON act.id { act with range_end := none }) ∧
    (∀ now : ℚ,
        resume_activity [] now
          = LedgerCall.AddFactJSON default_category default_activity now) ∧
    (∀ (d i0 : ℕ) (t1 t2 t3 t4 : ℚ),
        (sysRun { session := initState false d, ledger := [], nextId := i0 }
            [(Event.activeChanged false, t1), (Event.lockRequested, t2),
             (Event.activeChanged true, t3), (Event.activeChanged false, t4)]).ledger
          = [{ id := i0, category := default_category
             , activity := default_activity, start := t1, range_end := none }]) := by
  refine ⟨?_, ?_, ?_⟩
  · intro activities act now h
    simp [resume_activity, h]
  · intro now
    simp [resume_activity]
  · intro d i0 t1 t2 t3 t4
    simp [sysRun, sysStep, resume_activity, applyLedgerCall, applyAdd,
      applyUpdate, applyStop, on_locked, lockMsg, idle_start]

/-- Witness for C2 at a concrete one-entry ledger. -/
theorem C2_upsert_effect_witness :
    resume_activity [⟨5, "A", "B", 0, some 1⟩] 2
      = LedgerCall.UpdateFactJSON 5 ⟨5, "A", "B", 0, none⟩ :=
  C2_upsert_effect.1 [⟨5, "A", "B", 0, some 1⟩] ⟨5, "A", "B", 0, some 1⟩ 2 rfl

/-- C4 as frozen is refuted: an `ActiveChanged(false)` received while
`screensaver_active` is already false does change `screen_locked` when a
`LockRequested` arrived in between — here the reachable state after
`LockRequested` has `screen_locked = true`, and the re-asserted
`ActiveChanged(false)` flips it to false. -/
theorem C4_counterexample :
    ((runEvents (initState false 0) [(Event.lockRequested, 0)]).screensaver_active
      = false) ∧
    ((runEvents (initState false 0) [(Event.lockRequested, 0)]).screen_locked
      = true) ∧
    (handle (runEvents (initState false 0) [(Event.lockRequested, 0)])
        (Event.activeChanged false) 1).1.screen_locked
      ≠ (runEvents (initState false 0) [(Event.lockRequested, 0)]).screen_locked := by
  decide

/-- C4 amended: every `ActiveChanged(false)` received while
`screensaver_active == false` reissues `UpsertOpenEntry` with no change to
`screensaver_active` and with `screen_locked` set to false — a no-op on
the state whenever `screen_locked` was already false, hence for every such
event after the first; and every `ActiveChanged(true)` received while
already `screensaver_active == true` leaves the state unchanged and
recomputes and reissues `CloseOpenEntry`. -/
theorem C4_reassertions (s : SessionState) (t : ℚ) :
    (s.screensaver_active = false →
      (handle s (Event.activeChanged false) t).2 = [Command.UpsertOpenEntry] ∧
      (handle s (Event.activeChanged false) t).1.screensaver_active = false ∧
      (handle s (Event.activeChanged false) t).1.screen_locked = false ∧
      (s.screen_locked = false → (handle s (Event.activeChanged false) t).1 = s)) ∧
    (s.screensaver_active = true →
      (handle s (Event.activeChanged true) t).2
        = [Command.CloseOpenEntry (idle_start s t)] ∧
      (handle s (Event.activeChanged true) t).1 = s) := by
  constructor
  · intro ha
    refine ⟨by simp [handle, on_active_changed],
      by simp [handle, on_active_changed],
      by simp [handle, on_active_changed], ?_⟩
    intro hl
    cases s with
    | mk a l tm =>
      cases ha
      cases hl
      simp [handle, on_active_changed]
  · intro ha
    cases s with
    | mk a l tm =>
      cases ha
      exact ⟨by simp [handle, on_active_changed], by simp [handle, on_active_changed]⟩

/-- Witness for C4 amended, at a state with a pending lock flag. -/
theorem C4_reassertions_witness :
    (handle ⟨false, true, 0⟩ (Event.activeChanged false) 0).2
      = [Command.UpsertOpenEntry] :=
  ((C4_reassertions ⟨false, true, 0⟩ 0).1 rfl).1

/-- C5 as frozen is refuted: in the reachable trace lock, unlock, lock,
unlock (one activation cycle, entered active), `screen_locked` is reset to
false a second time by the re-asserted `ActiveChanged(false)` — a moment
at which `screensaver_active` is already false, i.e. not a true-to-false
transition of the active flag. -/
theorem C5_counterexample :
    ((runEvents (initState true 0)
        [(Event.lockRequested, 0), (Event.activeChanged false, 1),
         (Event.lockRequested, 2)]).screensaver_active = false) ∧
    ((runEvents (initState true 0)
        [(Event.lockRequested, 0), (Event.activeChanged false, 1),
         (Event.lockRequested, 2)]).screen_locked = true) ∧
    ((runEvents (initState true 0)
        [(Event.lockRequested, 0), (Event.activeChanged false, 1),
         (Event.lockRequested, 2), (Event.activeChanged false, 3)]).screen_locked
      = false) := by
  decide

/-- C5 amended: `screen_locked` is set to false at every
`ActiveChanged(false)` handling — hence at every transition of
`screensaver_active` from true to false, but also at re-asserted
`ActiveChanged(false)` events — and is never cleared elsewhere:
`ActiveChanged(true)` leaves it unchanged and `LockRequested` sets it. -/
theorem C5_locked_reset_points (s : SessionState) (t : ℚ) :
    (handle s (Event.activeChanged false) t).1.screen_locked = false ∧
    (handle s (Event.activeChanged true) t).1.screen_locked = s.screen_locked ∧
    (handle s Event.lockRequested t).1.screen_locked = true := by
  refine ⟨by simp [handle, on_active_changed],
    by simp [handle, on_active_changed],
    by simp [handle, on_locked, lockMsg]⟩

/-- C9: at construction `screen_locked` is false regardless of the
activation value read from the collaborator, so if the process starts
while the screen is locked, the first `ActiveChanged(true)` takes the
unlocked path and closes at `t` minus the configured delay `d` seconds
(when `d` is nonzero). -/
theorem C9_init_locked_false (activation : Bool) (d : ℕ) (t : ℚ) :
    (initState activation d).screen_locked = false ∧
    (d ≠ 0 →
      (handle (initState true d) (Event.activeChanged true) t).2
        = [Command.CloseOpenEntry (t - (d : ℚ))]) := by
  refine ⟨rfl, ?_⟩
  intro hd
  have hq : ((d : ℚ)) ≠ 0 := Nat.cast_ne_zero.mpr hd
  have h60 : ((d : ℚ)) / 60 ≠ 0 := div_ne_zero hq (by norm_num)
  have hc : ((d : ℚ)) / 60 * 60 = (d : ℚ) := by field_simp
  simp [handle, on_active_changed, idle_start, initState, initTimeout, hd, h60, hc]

/-- Witness for C9 with a 600-second (10-minute) configured delay. -/
theorem C9_init_locked_false_witness :
    (handle (initState true 600) (Event.activeChanged true) 0).2
      = [Command.CloseOpenEntry (0 - (600 : ℚ))] :=
  (C9_init_locked_false true 600 0).2 (by decide)

/-- C10: the stored timeout is exactly `d/60` minutes (true, non
truncating division): multiplying back by 60 recovers `d` for every `d`,
a read value of `0` (also what an unreadable key yields) gives timeout
`0`, and the duration subtracted in `idle_start` on the unlocked path is
exactly `d` seconds. -/
theorem C10_timeout_exact (d : ℕ) :
    initTimeout 0 = 0 ∧
    (d ≠ 0 → initTimeout d = (d : ℚ) / 60) ∧
    initTimeout d * 60 = (d : ℚ) ∧
    (d ≠ 0 → ∀ t : ℚ, t - idle_start (initState false d) t = (d : ℚ)) := by
  refine ⟨rfl, ?_, ?_, ?_⟩
  · intro hd
    simp [initTimeout, hd]
  · by_cases hd : d = 0
    · subst hd
      simp [initTimeout]
    · have h : initTimeout d = (d : ℚ) / 60 := by simp [initTimeout, hd]
      rw [h]
      field_simp
  · intro hd t
    have hq : ((d : ℚ)) ≠ 0 := Nat.cast_ne_zero.mpr hd
    have h60 : ((d : ℚ)) / 60 ≠ 0 := div_ne_zero hq (by norm_num)
    have hc : ((d : ℚ)) / 60 * 60 = (d : ℚ) := by field_simp
    simp [idle_start, initState, initTimeout, hd, h60, hc]

/-- Witness for C10 with a 90-second configured delay (not a whole number
of minutes, so truncating division would be off by 30 seconds). -/
theorem C10_timeout_exact_witness :
    (100 : ℚ) - idle_start (initState false 90) 100 = (90 : ℚ) :=
  (C10_timeout_exact 90).2.2.2 (by decide) 100

end HamsterAutoTracker
